import Mathlib

/-!
Shallow embedding of `zaza/openstack/utilities/juju.py` and
`zaza/openstack/charm_tests/policyd/tests.py`.

External collaborators (the `zaza.model` client: `run_on_unit`,
`run_on_leader`, `get_first_unit_name`, `get_relation_id`, and the YAML
parser `yaml.safe_load`) are passed in as oracle functions; the status
snapshot returned by `model.get_status()` is passed in as an explicit
`FullStatus` value.  Dict-like `.get` access is modelled with association
lists and `Option`; a Python exception is an `Except.error` value.
-/

set_option autoImplicit false

namespace Zaza

/-- The result envelope of `model.run_on_unit` / `model.run_on_leader`:
a dict with keys `Code`, `Stdout`, `Stderr`.  `.get` on a possibly absent
key yields `Option`; the code always converts `Code` with `int(...)`. -/
structure CommandResult where
  code : Int
  stdout : Option String
  stderr : Option String
deriving Repr, DecidableEq

/-- Python exceptions observable in the embedded code.
`CommandRunFailed` is `zaza.model.CommandRunFailed(cmd, result)`;
`AttributeError` models `.get`/`.keys` applied to `None`;
`StopIteration` models the bare `raise StopIteration` in
`get_machines_for_application`; `OSError` stands for a filesystem error
during directory removal. -/
inductive PyErr where
  | CommandRunFailed (cmd : String) (result : Option CommandResult)
  | AttributeError
  | StopIteration
  | OSError (msg : String)
deriving Repr, DecidableEq

/-- One unit's record inside an application's `units` dict;
`.get("machine")` may be absent. -/
structure UnitStatus where
  machine : Option String
deriving Repr, DecidableEq

/-- One application's status record.  `units` is the optional `units`
dict (absent for subordinate charms); `subordinate_to` is the
`subordinate-to` list, `[]` when absent or empty (both are falsy). -/
structure AppStatus where
  units : Option (List (String × UnitStatus))
  subordinate_to : List String
deriving Repr, DecidableEq

/-- The full juju status snapshot (`model.get_status()`), keyed by
application name.  Keys are unique, as in a Python dict. -/
structure FullStatus where
  applications : List (String × AppStatus)
deriving Repr, DecidableEq

/-- Dict lookup `d.get(k)`: first binding of `k`, else `none`. -/
def assocGet {β : Type} (l : List (String × β)) (k : String) : Option β :=
  match l with
  | [] => none
  | (k', v) :: rest => if k' = k then some v else assocGet rest k

/-- Python's `'/' in name`. -/
def containsSlash (s : String) : Bool :=
  s.data.any (fun c => c = '/')

/-- Characters of `s.split("/")[0]`. -/
def takeUntilSlash : List Char → List Char
  | [] => []
  | c :: cs => if c = '/' then [] else c :: takeUntilSlash cs

/-- Python's `s.split("/")[0]`: the prefix of `s` before the first `/`. -/
def splitHead (s : String) : String :=
  ⟨takeUntilSlash s.data⟩

/-- The heterogeneous value returned by `get_application_status`: the
full snapshot, one application's record, or one unit's record. -/
inductive StatusVal where
  | full (s : FullStatus)
  | app (a : AppStatus)
  | unit (u : UnitStatus)
deriving Repr, DecidableEq

/-- `get_application_status(application=None, unit=None)` from
`zaza/openstack/utilities/juju.py`.  If `unit` is given without
`application`, the application is derived as `unit.split("/")[0]`.
Narrowing an absent application yields `None`; narrowing into `units`
when the intermediate value is `None` raises `AttributeError`
(`None.get(...)` in Python). -/
def get_application_status (st : FullStatus) (application unit : Option String) :
    Except PyErr (Option StatusVal) :=
  let application :=
    match unit, application with
    | some u, none => some (splitHead u)
    | _, a => a
  match application with
  | none => .ok (some (.full st))
  | some a =>
    let appSt := assocGet st.applications a
    match unit with
    | none => .ok (appSt.map .app)
    | some u =>
      match appSt with
      | none => .error .AttributeError
      | some s =>
        match s.units with
        | none => .error .AttributeError
        | some us => .ok ((assocGet us u).map .unit)

/-- Viewing a `StatusVal` as an application record, as the dict-style
`.get` calls in `get_machines_for_application` require; on the other
variants those calls would fail attribute access. -/
def asApp : StatusVal → Except PyErr AppStatus
  | .app a => .ok a
  | _ => .error .AttributeError

/-- `get_machines_for_application(application)`: yields
`units[u].get("machine")` for each unit key.  An application with no
status record raises `StopIteration`; a subordinate application (no
`units` field, truthy `subordinate-to`) is resolved by re-fetching
status for the first `subordinate-to` entry.  The generator's yielded
sequence is returned as a list. -/
def get_machines_for_application (st : FullStatus) (application : String) :
    Except PyErr (List (Option String)) :=
  match get_application_status st (some application) none with
  | .error e => .error e
  | .ok none => .error .StopIteration
  | .ok (some sv) =>
    match asApp sv with
    | .error e => .error e
    | .ok s =>
      let resolved : Except PyErr AppStatus :=
        if s.units.isNone && !s.subordinate_to.isEmpty then
          match s.subordinate_to with
          | [] => .error .AttributeError
          | p :: _ =>
            match get_application_status st (some p) none with
            | .error e => .error e
            | .ok none => .error .AttributeError
            | .ok (some sv') => asApp sv'
        else .ok s
      match resolved with
      | .error e => .error e
      | .ok s' =>
        match s'.units with
        | none => .error .AttributeError
        | some us => .ok (us.map (fun kv => kv.2.machine))

/-- `remote_run(unit, remote_cmd, timeout=None, fatal=None)`.
`run_on_unit` is the external `model.run_on_unit` transport; a falsy
result envelope is `none`.  `fatal` defaults to `True`.  On a truthy
envelope: exit code 0 returns `Stdout`; otherwise raise
`CommandRunFailed(remote_cmd, result)` when fatal, else return `Stderr`.
A falsy envelope falls off the end of the function, returning `None`. -/
def remote_run (run_on_unit : String → String → Option Int → Option CommandResult)
    (unit remote_cmd : String) (timeout : Option Int) (fatal : Option Bool) :
    Except PyErr (Option String) :=
  let fatal := fatal.getD true
  match run_on_unit unit remote_cmd timeout with
  | some r =>
    if r.code = 0 then .ok r.stdout
    else if fatal then .error (.CommandRunFailed remote_cmd (some r))
    else .ok r.stderr
  | none => .ok none

/-- `_get_unit_names(names)`: names containing `/` pass through
unchanged; bare application names are resolved through the external
`model.get_first_unit_name`. -/
def _get_unit_names (get_first_unit_name : String → String) (names : List String) :
    List String :=
  names.map (fun name => if containsSlash name then name else get_first_unit_name name)

/-- `get_relation_from_unit(entity, remote_entity, remote_interface_name)`.
`get_relation_id`, `get_first_unit_name`, `run_on_unit` and the YAML
parser `safe_load` are external oracles.  Runs a `relation-get` command
on the resolved unit; exit code 0 parses `Stdout`, anything else raises
`CommandRunFailed(cmd, result)`. -/
def get_relation_from_unit {Y : Type}
    (get_relation_id : String → String → String → String)
    (get_first_unit_name : String → String)
    (run_on_unit : String → String → Option CommandResult)
    (safe_load : Option String → Y)
    (entity remote_entity remote_interface_name : String) : Except PyErr Y :=
  let application := splitHead entity
  let remote_application := splitHead remote_entity
  let rid := get_relation_id application remote_application remote_interface_name
  match _get_unit_names get_first_unit_name [entity, remote_entity] with
  | [unit, remote_unit] =>
    let cmd := "relation-get --format=yaml -r \"" ++ rid ++ "\" - \"" ++ remote_unit ++ "\""
    match run_on_unit unit cmd with
    | some r =>
      if r.code = 0 then .ok (safe_load r.stdout)
      else .error (.CommandRunFailed cmd (some r))
    | none => .error (.CommandRunFailed cmd none)
  | _ => .error .AttributeError

/-- `leader_get(application, key='')`.  Runs `leader-get --format=yaml
<key>` on the leader via the external `run_on_leader`; exit code 0
parses `Stdout`, anything else (including a falsy envelope) raises
`CommandRunFailed(cmd, result)`. -/
def leader_get {Y : Type}
    (run_on_leader : String → String → Option CommandResult)
    (safe_load : Option String → Y)
    (application key : String) : Except PyErr Y :=
  let cmd := "leader-get --format=yaml " ++ key
  match run_on_leader application cmd with
  | some r =>
    if r.code = 0 then .ok (safe_load r.stdout)
    else .error (.CommandRunFailed cmd (some r))
  | none => .error (.CommandRunFailed cmd none)

end Zaza

namespace PolicydTest

open Zaza

/-- The observable `zaza_model` / filesystem actions the policyd test can
issue, in the order the test body performs them.  `blockUntilFileMissing`
is the zaza primitive an absence assertion would use; the test under
scrutiny never emits it. -/
inductive TestStep where
  | makeZip (path : String) (files : List (String × String))
  | attachResource (application resource_name resource_path : String)
  | blockUntilAllUnitsIdle
  | setApplicationConfig (application : String) (config : List (String × String))
  | blockUntilFileHasContents (application path contents : String)
  | getApplicationStatus (application : String)
  | blockUntilFileMissing (application path : String)
deriving Repr, DecidableEq

/-- `_set_config_and_wait(state)`: set `use-policyd-override` to
`"True"`/`"False"` and wait for all units to be idle. -/
def _set_config_and_wait (application_name : String) (state : Bool) : List TestStep :=
  let s := if state then "True" else "False"
  [.setApplicationConfig application_name [("use-policyd-override", s)],
   .blockUntilAllUnitsIdle]

/-- `_make_zip_file_from(name, files)`: writes the zip under the class
temp dir and returns its path, paired with the step performed. -/
def _make_zip_file_from (tmp_dir name : String) (files : List (String × String)) :
    TestStep × String :=
  let path := tmp_dir ++ "/" ++ name
  (.makeZip path files, path)

/-- The body of `test_policyd_good_yaml`: build `good.zip` holding
`file1.yaml` with content `"\x7b'rule1': '!'\x7d"`, attach it as the
`policyd-override` resource, wait for idle, enable the override, wait
until `/etc/<service>/policy.d/file1.yaml` contains `rule1: '!'`, wait
for idle, and fetch the application status.  The trailing
disable-and-verify-removal steps exist only as comments in the source. -/
def test_policyd_good_yaml (application_name service_name tmp_dir : String) :
    List TestStep :=
  let good := [("file1.yaml", "\x7b'rule1': '!'\x7d")]
  let z := _make_zip_file_from tmp_dir "good.zip" good
  [z.1,
   .attachResource application_name "policyd-override" z.2,
   .blockUntilAllUnitsIdle]
  ++ _set_config_and_wait application_name true
  ++ [.blockUntilFileHasContents application_name
        ("/etc/" ++ service_name ++ "/policy.d/" ++ "file1.yaml") "rule1: '!'",
      .blockUntilAllUnitsIdle,
      .getApplicationStatus application_name]

/-- Per-test `tearDown`: switch the policyd override off and wait. -/
def tearDown (application_name : String) : List TestStep :=
  _set_config_and_wait application_name false

/-- The full observable scenario for one run of
`test_policyd_good_yaml`: the test body followed by its `tearDown`. -/
def test_policyd_good_yaml_scenario (application_name service_name tmp_dir : String) :
    List TestStep :=
  test_policyd_good_yaml application_name service_name tmp_dir
    ++ tearDown application_name

/-- Whether a step asserts that a file is no longer present. -/
def assertsFileMissing : TestStep → Bool
  | .blockUntilFileMissing _ _ => true
  | _ => false

/-- `shutil.rmtree(path, ignore_errors=...)`: the underlying deletion
outcome is abstracted as `deletion_error` (`none` = success, e.g. `some
(OSError ...)` when the directory was already removed externally and
`ignore_errors` is off). With `ignore_errors=True` every error is
swallowed inside `rmtree` itself. -/
def rmtree (ignore_errors : Bool) (deletion_error : Option PyErr) : Except PyErr Unit :=
  match deletion_error with
  | none => .ok ()
  | some e => if ignore_errors then .ok () else .error e

/-- `tearDownClass`: `shutil.rmtree(cls._tmp_dir, ignore_errors=True)`
wrapped in `try/except Exception` that logs and suppresses. -/
def tearDownClass (deletion_error : Option PyErr) : Except PyErr Unit :=
  match rmtree true deletion_error with
  | .ok _ => .ok ()
  | .error _ => .ok ()

end PolicydTest

namespace Zaza

/-- Claim C1: with `fatal=True` or `fatal` left at its default, `remote_run`
on a result envelope with exit code 0 returns exactly the envelope's
`Stdout` field, and on a non-zero exit code raises
`CommandRunFailed` carrying the original command text and the full
result envelope. -/
theorem remote_run_fatal_spec
    (run_on_unit : String → String → Option Int → Option CommandResult)
    (unit remote_cmd : String) (timeout : Option Int) (fatal : Option Bool)
    (r : CommandResult)
    (henv : run_on_unit unit remote_cmd timeout = some r)
    (hfatal : fatal = none ∨ fatal = some true) :
    (r.code = 0 →
      remote_run run_on_unit unit remote_cmd timeout fatal = .ok r.stdout) ∧
    (r.code ≠ 0 →
      remote_run run_on_unit unit remote_cmd timeout fatal =
        .error (.CommandRunFailed remote_cmd (some r))) := by
  unfold remote_run
  rw [henv]
  rcases hfatal with hf | hf <;> subst hf <;>
    exact ⟨fun hc => by simp [hc], fun hc => by simp [hc]⟩

/-- Witness for C1 at a concrete envelope (default `fatal`). -/
theorem remote_run_fatal_spec_witness :
    remote_run (fun _ _ _ => some ⟨0, some "out", some "err"⟩)
      "mysql/0" "ls" none none = .ok (some "out") ∧
    remote_run (fun _ _ _ => some ⟨1, some "out", some "err"⟩)
      "mysql/0" "ls" none none =
      .error (.CommandRunFailed "ls" (some ⟨1, some "out", some "err"⟩)) :=
  ⟨(remote_run_fatal_spec (fun _ _ _ => some ⟨0, some "out", some "err"⟩)
      "mysql/0" "ls" none none _ rfl (Or.inl rfl)).1 rfl,
   (remote_run_fatal_spec (fun _ _ _ => some ⟨1, some "out", some "err"⟩)
      "mysql/0" "ls" none none _ rfl (Or.inl rfl)).2 (by decide)⟩

/-- Claim C6: with `fatal=False`, `remote_run` on a result envelope with
non-zero exit code returns exactly the envelope's `Stderr` field and
never raises. -/
theorem remote_run_nonfatal_stderr
    (run_on_unit : String → String → Option Int → Option CommandResult)
    (unit remote_cmd : String) (timeout : Option Int) (r : CommandResult)
    (henv : run_on_unit unit remote_cmd timeout = some r)
    (hc : r.code ≠ 0) :
    remote_run run_on_unit unit remote_cmd timeout (some false) = .ok r.stderr := by
  unfold remote_run
  rw [henv]
  simp [hc]

/-- Witness for C6 at a concrete envelope. -/
theorem remote_run_nonfatal_stderr_witness :
    remote_run (fun _ _ _ => some ⟨2, some "out", some "err"⟩)
      "mysql/0" "ls" none (some false) = .ok (some "err") :=
  remote_run_nonfatal_stderr (fun _ _ _ => some ⟨2, some "out", some "err"⟩)
    "mysql/0" "ls" none _ rfl (by decide)

/-- Narrowing to an application only (`unit=None`) never raises: it is
exactly the dict lookup, mapped into a `StatusVal`. -/
theorem get_application_status_app_only (st : FullStatus) (a : String) :
    get_application_status st (some a) none =
      .ok ((assocGet st.applications a).map StatusVal.app) := rfl

/-- Counterexample to claim C2: on an empty status snapshot, asking for
unit `app/0` (application derived from the unit name) raises
`AttributeError` (`None.get("units")` in Python) instead of returning
`None`. -/
theorem get_application_status_absent_unit_raises :
    get_application_status ⟨[]⟩ none (some "app/0") = .error .AttributeError := rfl

/-- Claim C2 (amended): for an application name absent from the status
snapshot, `get_application_status` queried without a unit returns `None`
and never raises; but when a unit argument is supplied whose application
record is absent — whether the application is given explicitly or
derived from the unit name — the call raises `AttributeError` instead of
returning `None`. -/
theorem get_application_status_absent_amended
    (st : FullStatus) (a u : String)
    (habsent : assocGet st.applications a = none)
    (hd : assocGet st.applications (splitHead u) = none) :
    get_application_status st (some a) none = .ok none ∧
    get_application_status st (some a) (some u) = .error .AttributeError ∧
    get_application_status st none (some u) = .error .AttributeError := by
  refine ⟨?_, ?_, ?_⟩
  · rw [get_application_status_app_only, habsent]; rfl
  · unfold get_application_status
    simp [habsent]
  · unfold get_application_status
    simp [hd]

/-- Witness for amended C2 on the empty snapshot. -/
theorem get_application_status_absent_amended_witness :
    get_application_status ⟨[]⟩ (some "mysql") none = .ok none ∧
    get_application_status ⟨[]⟩ (some "mysql") (some "mysql/0") =
      .error .AttributeError ∧
    get_application_status ⟨[]⟩ none (some "mysql/0") = .error .AttributeError :=
  get_application_status_absent_amended ⟨[]⟩ "mysql" "mysql/0" rfl rfl

/-- Claim C3: for an application with no status record at all,
`get_machines_for_application` fails (the bare `raise StopIteration`)
rather than producing machine output. -/
theorem get_machines_for_application_missing_app
    (st : FullStatus) (a : String)
    (habsent : assocGet st.applications a = none) :
    get_machines_for_application st a = .error .StopIteration := by
  unfold get_machines_for_application
  rw [get_application_status_app_only, habsent]
  rfl

/-- Witness for C3 on the empty snapshot. -/
theorem get_machines_for_application_missing_app_witness :
    get_machines_for_application ⟨[]⟩ "nova" = .error .StopIteration :=
  get_machines_for_application_missing_app ⟨[]⟩ "nova" rfl

/-- Claim C4: for a subordinate application `s` whose record has no
`units` field and whose `subordinate-to` list starts with `p`, where
`p`'s record carries a `units` dict, `get_machines_for_application s`
yields exactly the machines of `p`'s units, in order. -/
theorem get_machines_for_application_subordinate
    (st : FullStatus) (s p : String) (ps subp : List String)
    (pus : List (String × UnitStatus))
    (hs : assocGet st.applications s = some ⟨none, p :: ps⟩)
    (hp : assocGet st.applications p = some ⟨some pus, subp⟩) :
    get_machines_for_application st s =
      .ok (pus.map (fun kv => kv.2.machine)) := by
  unfold get_machines_for_application
  rw [get_application_status_app_only, hs]
  simp [asApp, get_application_status_app_only, hp]

/-- Witness for C4 on a concrete snapshot: subordinate `hacluster` on
principal `keystone` with two units. -/
theorem get_machines_for_application_subordinate_witness :
    get_machines_for_application
      ⟨[("keystone",
         ⟨some [("keystone/0", ⟨some "0"⟩), ("keystone/1", ⟨some "1"⟩)], []⟩),
        ("hacluster", ⟨none, ["keystone"]⟩)]⟩
      "hacluster" = .ok [some "0", some "1"] :=
  get_machines_for_application_subordinate
    ⟨[("keystone",
       ⟨some [("keystone/0", ⟨some "0"⟩), ("keystone/1", ⟨some "1"⟩)], []⟩),
      ("hacluster", ⟨none, ["keystone"]⟩)]⟩
    "hacluster" "keystone" [] []
    [("keystone/0", ⟨some "0"⟩), ("keystone/1", ⟨some "1"⟩)]
    (by decide) (by decide)

/-- Claim C5: `_get_unit_names` preserves length and order; every input
containing `/` passes through unchanged (no lookup is performed on it),
every bare application name is replaced by the external first-unit
lookup; in particular a singleton unit reference passes through. -/
theorem get_unit_names_spec (f : String → String) (names : List String) :
    (_get_unit_names f names).length = names.length ∧
    (∀ i, ∀ hi : i < names.length,
      (containsSlash names[i] = true →
        (_get_unit_names f names)[i]? = some names[i]) ∧
      (containsSlash names[i] = false →
        (_get_unit_names f names)[i]? = some (f names[i]))) ∧
    (∀ u, containsSlash u = true → _get_unit_names f [u] = [u]) := by
  refine ⟨by simp [_get_unit_names], fun i hi => ⟨fun hsl => ?_, fun hsl => ?_⟩,
    fun u hsl => by simp [_get_unit_names, hsl]⟩ <;>
    simp [_get_unit_names, List.getElem?_map, List.getElem?_eq_getElem hi, hsl]

/-- Witness for C5: a unit reference passes through, a bare name is
resolved. -/
theorem get_unit_names_spec_witness :
    (_get_unit_names (fun _ => "db/0") ["db/3", "db"])[0]? = some "db/3" ∧
    (_get_unit_names (fun _ => "db/0") ["db/3", "db"])[1]? = some "db/0" ∧
    _get_unit_names (fun _ => "db/0") ["mysql/0"] = ["mysql/0"] :=
  ⟨((get_unit_names_spec (fun _ => "db/0") ["db/3", "db"]).2.1 0
      (by decide)).1 (by decide),
   ((get_unit_names_spec (fun _ => "db/0") ["db/3", "db"]).2.1 1
      (by decide)).2 (by decide),
   (get_unit_names_spec (fun _ => "db/0") ["db/3", "db"]).2.2 "mysql/0" (by decide)⟩

/-- Claim C7: `leader_get` and `get_relation_from_unit` each return the
run's `Stdout` parsed by the YAML loader exactly when the underlying run
returned an envelope with exit code 0, and each raise `CommandRunFailed`
(carrying the command that was run and the envelope) in every other
case, including a falsy envelope. -/
theorem run_and_parse_exit_spec {Y : Type}
    (run_on_leader run_on_unit : String → String → Option CommandResult)
    (get_relation_id : String → String → String → String)
    (get_first_unit_name : String → String)
    (safe_load : Option String → Y)
    (application key entity remote_entity iface : String) (u ru : String)
    (hu : u = if containsSlash entity then entity else get_first_unit_name entity)
    (hru : ru = if containsSlash remote_entity then remote_entity
                else get_first_unit_name remote_entity) :
    ((∀ r, run_on_leader application ("leader-get --format=yaml " ++ key) = some r →
        (r.code = 0 →
          leader_get run_on_leader safe_load application key =
            .ok (safe_load r.stdout)) ∧
        (r.code ≠ 0 →
          leader_get run_on_leader safe_load application key =
            .error (.CommandRunFailed
              ("leader-get --format=yaml " ++ key) (some r)))) ∧
     (run_on_leader application ("leader-get --format=yaml " ++ key) = none →
        leader_get run_on_leader safe_load application key =
          .error (.CommandRunFailed ("leader-get --format=yaml " ++ key) none))) ∧
    ((∀ r, run_on_unit u
          ("relation-get --format=yaml -r \"" ++
            get_relation_id (splitHead entity) (splitHead remote_entity) iface ++
            "\" - \"" ++ ru ++ "\"") = some r →
        (r.code = 0 →
          get_relation_from_unit get_relation_id get_first_unit_name
            run_on_unit safe_load entity remote_entity iface =
            .ok (safe_load r.stdout)) ∧
        (r.code ≠ 0 →
          get_relation_from_unit get_relation_id get_first_unit_name
            run_on_unit safe_load entity remote_entity iface =
            .error (.CommandRunFailed
              ("relation-get --format=yaml -r \"" ++
                get_relation_id (splitHead entity) (splitHead remote_entity)
                  iface ++ "\" - \"" ++ ru ++ "\"") (some r)))) ∧
     (run_on_unit u
          ("relation-get --format=yaml -r \"" ++
            get_relation_id (splitHead entity) (splitHead remote_entity) iface ++
            "\" - \"" ++ ru ++ "\"") = none →
        get_relation_from_unit get_relation_id get_first_unit_name
          run_on_unit safe_load entity remote_entity iface =
          .error (.CommandRunFailed
            ("relation-get --format=yaml -r \"" ++
              get_relation_id (splitHead entity) (splitHead remote_entity)
                iface ++ "\" - \"" ++ ru ++ "\"") none))) := by
  subst hu hru
  constructor
  · constructor
    · intro r henv
      constructor <;> intro hc <;> simp [leader_get, henv, hc]
    · intro henv
      simp [leader_get, henv]
  · constructor
    · intro r henv
      constructor <;> intro hc <;>
        simp [get_relation_from_unit, _get_unit_names, henv, hc]
    · intro henv
      simp [get_relation_from_unit, _get_unit_names, henv]

/-- Witness for C7 at concrete envelopes: a successful `leader-get`
parse and a failing `relation-get`. -/
theorem run_and_parse_exit_spec_witness :
    leader_get (fun _ _ => some ⟨0, some "k: v", none⟩)
      (fun s => s) "keystone" "" =
      .ok (some "k: v") ∧
    get_relation_from_unit (fun _ _ _ => "db:1") (fun a => a ++ "/0")
      (fun _ _ => some ⟨1, none, some "err"⟩) (fun s => s)
      "ks/0" "db/2" "shared-db" =
      .error (.CommandRunFailed
        "relation-get --format=yaml -r \"db:1\" - \"db/2\"" (some ⟨1, none, some "err"⟩)) :=
  ⟨((run_and_parse_exit_spec (fun _ _ => some ⟨0, some "k: v", none⟩)
      (fun _ _ => some ⟨1, none, some "err"⟩) (fun _ _ _ => "db:1")
      (fun a => a ++ "/0") (fun s => s) "keystone" "" "ks/0" "db/2" "shared-db"
      "ks/0" "db/2" (by decide) (by decide)).1.1 _ rfl).1 rfl,
   ((run_and_parse_exit_spec (fun _ _ => some ⟨0, some "k: v", none⟩)
      (fun _ _ => some ⟨1, none, some "err"⟩) (fun _ _ _ => "db:1")
      (fun a => a ++ "/0") (fun s => s) "keystone" "" "ks/0" "db/2" "shared-db"
      "ks/0" "db/2" (by decide) (by decide)).2.1 _ (by decide)).2 (by decide)⟩

/-- Claim C10: when the run primitive returns a falsy (absent) result
envelope, `remote_run` returns `None` regardless of `fatal` — and this
is indistinguishable from an envelope whose exit code is 0 and whose
`Stdout` is `None`. -/
theorem remote_run_missing_envelope
    (unit remote_cmd : String) (timeout : Option Int) (fatal : Option Bool)
    (stderrv : Option String) :
    remote_run (fun _ _ _ => none) unit remote_cmd timeout fatal = .ok none ∧
    remote_run (fun _ _ _ => some ⟨0, none, stderrv⟩)
      unit remote_cmd timeout fatal = .ok none :=
  ⟨rfl, rfl⟩

end Zaza

namespace PolicydTest

/-- Counterexample to claim C8: the concrete policyd scenario (test body
plus `tearDown`) contains no step asserting that the policy file is no
longer present — the disable-and-verify-removal assertions exist only as
comments in the source. -/
theorem test_policyd_good_yaml_no_absence_check :
    (test_policyd_good_yaml_scenario "keystone" "keystone" "/tmp/policyd").any
      assertsFileMissing = false := by decide

/-- Claim C8 (amended): the policyd scenario performs, in order: build
`good.zip` containing `file1.yaml` with content `"\x7b'rule1': '!'\x7d"`,
attach it as the `policyd-override` resource, wait for idle, set
`use-policyd-override` to `"True"`, wait for idle, assert that
`/etc/<service>/policy.d/file1.yaml` contains `rule1: '!'`, wait for
idle, and fetch the application status; teardown then sets the flag back
to `"False"` and waits for idle, but no step asserts that the file is no
longer present. -/
theorem test_policyd_good_yaml_trace
    (application_name service_name tmp_dir : String) :
    test_policyd_good_yaml_scenario application_name service_name tmp_dir =
      [.makeZip (tmp_dir ++ "/" ++ "good.zip")
         [("file1.yaml", "\x7b'rule1': '!'\x7d")],
       .attachResource application_name "policyd-override"
         (tmp_dir ++ "/" ++ "good.zip"),
       .blockUntilAllUnitsIdle,
       .setApplicationConfig application_name [("use-policyd-override", "True")],
       .blockUntilAllUnitsIdle,
       .blockUntilFileHasContents application_name
         ("/etc/" ++ service_name ++ "/policy.d/" ++ "file1.yaml") "rule1: '!'",
       .blockUntilAllUnitsIdle,
       .getApplicationStatus application_name,
       .setApplicationConfig application_name [("use-policyd-override", "False")],
       .blockUntilAllUnitsIdle] ∧
    (test_policyd_good_yaml_scenario application_name service_name tmp_dir).any
      assertsFileMissing = false := by
  constructor
  · rfl
  · rfl

/-- Claim C9: test-class teardown of the temporary staging directory
never raises, whatever the underlying deletion outcome — including the
directory having already been removed externally. -/
theorem tearDownClass_never_raises (deletion_error : Option Zaza.PyErr) :
    tearDownClass deletion_error = .ok () := by
  cases deletion_error <;> rfl

end PolicydTest
